import Mathlib

/-!
Shallow embedding of the radIO daemon (src/src/main.rs): configuration
sanitization, binding resolution, the action executor and the blocking
round-robin event dispatch loop, together with theorems checking the
specification's claims against the code.
-/

namespace Radio

/-! ## Character-level string operations

Rust's `str::replace(pat, to)` replaces the non-overlapping occurrences of
`pat` left to right; `str::trim` strips whitespace from both ends.  We embed
both on `List Char`, specialised to the only pattern the program uses,
`"gpio"`.
-/

/-- Embedding of `k.replace("gpio", "")` (src/src/main.rs lines 94 and 102):
remove every non-overlapping occurrence of the four characters `gpio`,
scanning left to right.  Case-sensitive, exactly as Rust's `str::replace`. -/
def removeGpio : List Char → List Char
  | 'g' :: 'p' :: 'i' :: 'o' :: rest => removeGpio rest
  | c :: rest => c :: removeGpio rest
  | [] => []

/-- Embedding of Rust's `str::trim`: drop whitespace characters from both
ends of the character list. -/
def trimChars (s : List Char) : List Char :=
  ((s.dropWhile Char.isWhitespace).reverse.dropWhile Char.isWhitespace).reverse

/-- Key normalization applied by `sanitise_gpio_names` to every binding-map
key (src/src/main.rs lines 94 and 102): `k.replace("gpio", "").trim()`. -/
def sanitiseKeyChars (k : List Char) : List Char :=
  trimChars (removeGpio k)

/-- String-level wrapper of `sanitiseKeyChars`. -/
def sanitiseKey (k : String) : String :=
  ⟨sanitiseKeyChars k.data⟩

/-! ## Configuration data model -/

/-- Configuration record `AppConfig` (src/src/main.rs lines 24-30).  The two
Rust `HashMap<String, String>` binding maps are embedded as key-unique
association lists carried in iteration order; Rust's `HashMap` iteration
order is unspecified, so theorems about order-sensitive behaviour quantify
over, or exhibit, particular orders. -/
structure AppConfig where
  master_chip : String
  log_level : Nat
  input_binding : List (String × String)
  output_binding : List (String × String)
deriving DecidableEq, Repr

/-- Constant `DEFAULT_CHIP` (src/src/main.rs line 19). -/
def DEFAULT_CHIP : String := "/dev/gpiochip0"

/-- Constant `CFGPATH` (src/src/main.rs line 20). -/
def CFGPATH : String := "/etc/radio.conf"

/-- The `Default` instance of `AppConfig` (src/src/main.rs lines 32-41). -/
def AppConfig.default : AppConfig :=
  { master_chip := DEFAULT_CHIP
    log_level := 3
    input_binding := []
    output_binding := [] }

/-- `HashMap::insert` on the association-list embedding: overwrite the value
of an existing key in place, otherwise append the new entry. -/
def mapInsert (m : List (String × String)) (k v : String) :
    List (String × String) :=
  if m.any (fun p => p.1 == k) then
    m.map (fun p => if p.1 == k then (k, v) else p)
  else m ++ [(k, v)]

/-- Rebuilding one binding map inside `sanitise_gpio_names`: start from an
empty map and insert every entry of the old map under its sanitised key
(src/src/main.rs lines 89-95 and 97-103). -/
def sanitiseMap (m : List (String × String)) : List (String × String) :=
  m.foldl (fun acc p => mapInsert acc (sanitiseKey p.1) p.2) []

/-- Function `sanitise_gpio_names` (src/src/main.rs lines 87-105): rewrite
the keys of both binding maps, values unchanged. -/
def sanitise_gpio_names (cfg : AppConfig) : AppConfig :=
  { cfg with
    output_binding := sanitiseMap cfg.output_binding
    input_binding := sanitiseMap cfg.input_binding }

/-! ## Lemmas about the sanitizer -/

/-- Conditional unfolding of `removeGpio` when the head cannot start a
`gpio` occurrence. -/
theorem removeGpio_cons_ne (c : Char) (cs : List Char) (h : c ≠ 'g') :
    removeGpio (c :: cs) = c :: removeGpio cs := by
  rw [removeGpio.eq_def]
  split <;> first | rfl | simp_all

/-- Unfolding of `removeGpio` at an occurrence of the pattern. -/
theorem removeGpio_gpio (rest : List Char) :
    removeGpio ('g' :: 'p' :: 'i' :: 'o' :: rest) = removeGpio rest := rfl

/-- A prefix containing no `g` is kept verbatim by `removeGpio`. -/
theorem removeGpio_append_of_ne_g (a b : List Char) (h : ∀ c ∈ a, c ≠ 'g') :
    removeGpio (a ++ b) = a ++ removeGpio b := by
  induction a with
  | nil => rfl
  | cons c t ih =>
      rw [List.cons_append, removeGpio_cons_ne c (t ++ b) (h c (by simp)),
        ih (fun x hx => h x (by simp [hx]))]
      rfl

/-- A list containing no `g` is left unchanged by `removeGpio`. -/
theorem removeGpio_all_ne (l : List Char) (h : ∀ c ∈ l, c ≠ 'g') :
    removeGpio l = l := by
  have := removeGpio_append_of_ne_g l [] h
  simpa [show removeGpio [] = ([] : List Char) from rfl] using this

/-- Dropping while a predicate holds skips a prefix on which it always
holds. -/
theorem dropWhile_append_all (p : Char → Bool) (a b : List Char)
    (h : ∀ c ∈ a, p c = true) :
    List.dropWhile p (a ++ b) = List.dropWhile p b := by
  induction a with
  | nil => rfl
  | cons c t ih =>
      rw [List.cons_append, List.dropWhile_cons_of_pos (h c (by simp))]
      exact ih (fun x hx => h x (by simp [hx]))

/-- Dropping while a predicate holds consumes a list on which it always
holds. -/
theorem dropWhile_all_pos (p : Char → Bool) (l : List Char)
    (h : ∀ c ∈ l, p c = true) :
    List.dropWhile p l = [] := by
  have := dropWhile_append_all p l [] h
  simpa using this

/-- Dropping while a predicate holds keeps a list on which it never
holds. -/
theorem dropWhile_all_neg (p : Char → Bool) (l : List Char)
    (h : ∀ c ∈ l, p c = false) :
    List.dropWhile p l = l := by
  cases l with
  | nil => rfl
  | cons c t => exact List.dropWhile_cons_of_neg (by simp [h c (by simp)])

/-- Trimming removes exactly the whitespace wings around a whitespace-free
core. -/
theorem trim_sandwich (w1 w2 d : List Char)
    (h1 : ∀ c ∈ w1, c.isWhitespace = true) (h2 : ∀ c ∈ w2, c.isWhitespace = true)
    (hd : ∀ c ∈ d, c.isWhitespace = false) :
    trimChars (w1 ++ d ++ w2) = d := by
  unfold trimChars
  rw [List.append_assoc, dropWhile_append_all _ _ _ h1]
  cases d with
  | nil =>
      simp only [List.nil_append]
      rw [dropWhile_all_pos _ _ h2]
      simp
  | cons c t =>
      rw [List.cons_append, List.dropWhile_cons_of_neg (by simp [hd c (by simp)])]
      rw [show (c :: (t ++ w2)).reverse = w2.reverse ++ (c :: t).reverse by simp]
      rw [dropWhile_append_all _ _ _ (fun x hx => h2 x (List.mem_reverse.mp hx))]
      rw [dropWhile_all_neg _ _ (fun x hx => hd x (List.mem_reverse.mp hx))]
      simp

/-- The ten decimal digit characters. -/
def decDigits : List Char := ['0','1','2','3','4','5','6','7','8','9']

/-- Values below ten render as decimal digit characters. -/
theorem digitChar_mem (k : Nat) (h : k < 10) : Nat.digitChar k ∈ decDigits := by
  interval_cases k <;> decide

/-- Characterisation of `Nat.toDigitsCore` at base ten: it prepends a
nonempty (when fuelled) block of decimal digits to its accumulator. -/
theorem toDigitsCore_spec (f : Nat) :
    ∀ (n : Nat) (ds : List Char), ∃ l, Nat.toDigitsCore 10 f n ds = l ++ ds ∧
      (∀ c ∈ l, c ∈ decDigits) ∧ (f ≠ 0 → l ≠ []) := by
  induction f with
  | zero =>
      intro n ds
      exact ⟨[], rfl, by simp, by simp⟩
  | succ f ih =>
      intro n ds
      rw [Nat.toDigitsCore]
      by_cases h : n / 10 = 0
      · refine ⟨[Nat.digitChar (n % 10)], by simp [h], ?_, by simp⟩
        intro c hc
        simp at hc
        subst hc
        exact digitChar_mem _ (Nat.mod_lt _ (by norm_num))
      · obtain ⟨l, hl, hmem, _⟩ := ih (n / 10) (Nat.digitChar (n % 10) :: ds)
        refine ⟨l ++ [Nat.digitChar (n % 10)], ?_, ?_, by simp⟩
        · simp [h, hl]
        · intro c hc
          rcases List.mem_append.1 hc with h1 | h2
          · exact hmem c h1
          · simp at h2
            subst h2
            exact digitChar_mem _ (Nat.mod_lt _ (by norm_num))

/-- The decimal rendering of a natural number is a nonempty string of
decimal digit characters. -/
theorem repr_data_digits (n : Nat) :
    (∀ c ∈ (Nat.repr n).data, c ∈ decDigits) ∧ (Nat.repr n).data ≠ [] := by
  obtain ⟨l, hl, hmem, hne⟩ := toDigitsCore_spec (n + 1) n []
  have hrepr : (Nat.repr n).data = Nat.toDigits 10 n := rfl
  rw [hrepr, Nat.toDigits, hl]
  simp only [List.append_nil]
  exact ⟨hmem, hne (by simp)⟩

/-- Decimal digit characters are not whitespace. -/
theorem decDigit_not_ws (c : Char) (h : c ∈ decDigits) : c.isWhitespace = false := by
  fin_cases h <;> decide

/-- Decimal digit characters are not the letter `g`. -/
theorem decDigit_ne_g (c : Char) (h : c ∈ decDigits) : c ≠ 'g' := by
  fin_cases h <;> decide

/-- Whitespace characters are not the letter `g`. -/
theorem ws_ne_g (c : Char) (h : c.isWhitespace = true) : c ≠ 'g' := by
  intro hc
  subst hc
  simp [Char.isWhitespace] at h

/-- Sanitising a lowercase `gpio`-prefixed decimal key with whitespace wings
yields exactly the decimal digits. -/
theorem sanitiseKeyChars_gpio (N : Nat) (w1 w2 : List Char)
    (h1 : ∀ c ∈ w1, c.isWhitespace = true) (h2 : ∀ c ∈ w2, c.isWhitespace = true) :
    sanitiseKeyChars (w1 ++ ['g','p','i','o'] ++ (Nat.repr N).data ++ w2)
      = (Nat.repr N).data := by
  obtain ⟨hdig, -⟩ := repr_data_digits N
  unfold sanitiseKeyChars
  have hstep : removeGpio (w1 ++ ['g','p','i','o'] ++ (Nat.repr N).data ++ w2)
      = w1 ++ (Nat.repr N).data ++ w2 := by
    have e1 : w1 ++ ['g','p','i','o'] ++ (Nat.repr N).data ++ w2
        = w1 ++ ('g' :: 'p' :: 'i' :: 'o' :: ((Nat.repr N).data ++ w2)) := by
      simp
    rw [e1, removeGpio_append_of_ne_g w1 _ (fun c hc => ws_ne_g c (h1 c hc)),
      removeGpio_gpio,
      removeGpio_all_ne ((Nat.repr N).data ++ w2) ?_]
    · simp
    · intro c hc
      rcases List.mem_append.1 hc with h | h
      · exact decDigit_ne_g c (hdig c h)
      · exact ws_ne_g c (h2 c h)
  rw [hstep]
  exact trim_sandwich w1 w2 _ h1 h2 (fun c hc => decDigit_not_ws c (hdig c hc))

/-- Sanitising an uppercase `GPIO`-prefixed decimal key with whitespace wings
only trims: the `GPIO` letters survive, because `str::replace` is
case-sensitive. -/
theorem sanitiseKeyChars_GPIO (N : Nat) (w1 w2 : List Char)
    (h1 : ∀ c ∈ w1, c.isWhitespace = true) (h2 : ∀ c ∈ w2, c.isWhitespace = true) :
    sanitiseKeyChars (w1 ++ ['G','P','I','O'] ++ (Nat.repr N).data ++ w2)
      = ['G','P','I','O'] ++ (Nat.repr N).data := by
  obtain ⟨hdig, -⟩ := repr_data_digits N
  unfold sanitiseKeyChars
  have hng : ∀ c ∈ w1 ++ ['G','P','I','O'] ++ (Nat.repr N).data ++ w2, c ≠ 'g' := by
    intro c hc
    rcases List.mem_append.1 hc with h | h
    · rcases List.mem_append.1 h with h | h
      · rcases List.mem_append.1 h with h | h
        · exact ws_ne_g c (h1 c h)
        · fin_cases h <;> decide
      · exact decDigit_ne_g c (hdig c h)
    · exact ws_ne_g c (h2 c h)
  rw [removeGpio_all_ne _ hng]
  have e1 : w1 ++ ['G','P','I','O'] ++ (Nat.repr N).data ++ w2
      = w1 ++ (['G','P','I','O'] ++ (Nat.repr N).data) ++ w2 := by
    simp
  rw [e1]
  refine trim_sandwich w1 w2 _ h1 h2 ?_
  intro c hc
  rcases List.mem_append.1 hc with h | h
  · fin_cases h <;> decide
  · exact decDigit_not_ws c (hdig c h)

/-- Claim C1 (corrected, counterexample): the sanitizer does not rewrite an
uppercase `GPIO`-prefixed key to the decimal string — `str::replace("gpio",
"")` is case-sensitive, so `" GPIO17 "` sanitises to `"GPIO17"`, not
`"17"`. -/
theorem sanitise_gpio_uppercase_not_stripped :
    sanitiseKey " GPIO17 " = "GPIO17" ∧ sanitiseKey "GPIO17" ≠ "17" := by
  constructor
  · rfl
  · decide

/-- Claim C1 (amended): a key formed of arbitrary whitespace, the lowercase
literal `gpio`, the decimal rendering of N, and trailing whitespace is mapped
by `sanitise_gpio_names` to exactly the decimal string of N, in both the
input-binding and output-binding maps; the corresponding uppercase `GPIO`
key is merely trimmed, keeping the `GPIO` letters, and hence is not mapped
to the decimal string of N. -/
theorem sanitise_gpio_key_amended (N : Nat) (w1 w2 : List Char)
    (chip : String) (lv : Nat) (v v' : String)
    (h1 : ∀ c ∈ w1, c.isWhitespace = true) (h2 : ∀ c ∈ w2, c.isWhitespace = true) :
    sanitise_gpio_names
      { master_chip := chip, log_level := lv
        input_binding := [(⟨w1 ++ "gpio".data ++ (Nat.repr N).data ++ w2⟩, v)]
        output_binding := [(⟨w1 ++ "gpio".data ++ (Nat.repr N).data ++ w2⟩, v')] }
      = { master_chip := chip, log_level := lv
          input_binding := [(Nat.repr N, v)]
          output_binding := [(Nat.repr N, v')] }
    ∧ sanitiseKey ⟨w1 ++ "GPIO".data ++ (Nat.repr N).data ++ w2⟩
        = ⟨"GPIO".data ++ (Nat.repr N).data⟩
    ∧ (⟨"GPIO".data ++ (Nat.repr N).data⟩ : String) ≠ Nat.repr N := by
  have key1 := sanitiseKeyChars_gpio N w1 w2 h1 h2
  have key2 := sanitiseKeyChars_GPIO N w1 w2 h1 h2
  have hkey : sanitiseKey ⟨w1 ++ "gpio".data ++ (Nat.repr N).data ++ w2⟩ = Nat.repr N :=
    calc sanitiseKey ⟨w1 ++ "gpio".data ++ (Nat.repr N).data ++ w2⟩
        = ⟨sanitiseKeyChars (w1 ++ ['g','p','i','o'] ++ (Nat.repr N).data ++ w2)⟩ := rfl
      _ = ⟨(Nat.repr N).data⟩ := by rw [key1]
      _ = Nat.repr N := rfl
  refine ⟨?_, ?_, ?_⟩
  · have expand : sanitise_gpio_names
        { master_chip := chip, log_level := lv
          input_binding := [(⟨w1 ++ "gpio".data ++ (Nat.repr N).data ++ w2⟩, v)]
          output_binding := [(⟨w1 ++ "gpio".data ++ (Nat.repr N).data ++ w2⟩, v')] }
        = { master_chip := chip, log_level := lv
            input_binding := [(sanitiseKey ⟨w1 ++ "gpio".data ++ (Nat.repr N).data ++ w2⟩, v)]
            output_binding :=
              [(sanitiseKey ⟨w1 ++ "gpio".data ++ (Nat.repr N).data ++ w2⟩, v')] } := rfl
    rw [expand, hkey]
  · calc sanitiseKey ⟨w1 ++ "GPIO".data ++ (Nat.repr N).data ++ w2⟩
        = ⟨sanitiseKeyChars (w1 ++ ['G','P','I','O'] ++ (Nat.repr N).data ++ w2)⟩ := rfl
      _ = ⟨"GPIO".data ++ (Nat.repr N).data⟩ := by rw [key2]
  · intro h
    have hlen := congrArg (fun s => s.data.length) h
    have hUP : "GPIO".data = ['G','P','I','O'] := rfl
    rw [hUP] at hlen
    simp at hlen
    omega

/-- Witness for the amended claim C1, at N = 17 with single-space wings. -/
theorem sanitise_gpio_key_amended_witness :
    sanitise_gpio_names
      { master_chip := "/dev/gpiochip0", log_level := 3
        input_binding := [(⟨[' '] ++ "gpio".data ++ (Nat.repr 17).data ++ [' ']⟩, "setoff")]
        output_binding := [(⟨[' '] ++ "gpio".data ++ (Nat.repr 17).data ++ [' ']⟩, "seton")] }
      = { master_chip := "/dev/gpiochip0", log_level := 3
          input_binding := [(Nat.repr 17, "setoff")]
          output_binding := [(Nat.repr 17, "seton")] }
    ∧ sanitiseKey ⟨[' '] ++ "GPIO".data ++ (Nat.repr 17).data ++ [' ']⟩
        = ⟨"GPIO".data ++ (Nat.repr 17).data⟩
    ∧ (⟨"GPIO".data ++ (Nat.repr 17).data⟩ : String) ≠ Nat.repr 17 :=
  sanitise_gpio_key_amended 17 [' '] [' '] "/dev/gpiochip0" 3 "setoff" "seton"
    (by decide) (by decide)

/-! ## Side effects, hardware and system-manager boundary

Every externally visible step of the program is recorded as an `Effect`;
fallible external calls take their outcomes from an `Oracle` so that
theorems can quantify over success and failure of the environment.
-/

/-- The three logind manager calls (src/src/main.rs lines 43-62), each made
with the interactive flag fixed to `false`. -/
inductive MgrAction
  | powerOff
  | reboot
  | halt
deriving DecidableEq, Repr

/-- Observable side effects of the program, in the order they are
performed. -/
inductive Effect
  | logDebug (msg : String)
  | logInfo (msg : String)
  | logWarn (msg : String)
  | logError (msg : String)
  | syncFs
  | sleepSecs (n : Nat)
  | mgrCall (a : MgrAction)
  | lineRequest (line level : Nat) (consumer : String)
  | eventRequest (line : Nat) (consumer : String)
  | fsWrite (path content : String)
deriving DecidableEq, Repr

/-- Runtime errors surfaced through `anyhow::Result`. -/
inductive RunError
  | gpioError
  | mgrError
  | streamError
deriving DecidableEq, Repr

/-- Edge types delivered by the GPIO character device (`gpio_cdev`'s
`EventType`, used at src/src/main.rs line 219). -/
inductive EventType
  | rising
  | falling
deriving DecidableEq, Repr

/-- An edge-notification record; only its edge type is inspected. -/
structure LineEvent where
  event_type : EventType
deriving DecidableEq, Repr

/-- One element yielded by `next().await` on a line's event stream: either
an event or a transport-level error frame. -/
inductive StreamItem
  | ok (e : LineEvent)
  | failed
deriving DecidableEq, Repr

/-- The observable future of one line's edge-event stream.  `never` is an
await that never completes (the line stays quiescent); `closed` signals
end-of-stream (`next()` returns `None`) now and on every later poll;
`next i rest` yields the item `i` and continues as `rest`. -/
inductive EvtStream
  | never
  | closed
  | next (i : StreamItem) (rest : EvtStream)
deriving DecidableEq, Repr

/-- Outcomes of the fallible external calls and the per-line event streams,
fixed per run. -/
structure Oracle where
  mgrOk : MgrAction → Bool
  getLineOk : Nat → Bool
  requestOk : Nat → Bool
  chipOk : Bool
  evtReqOk : Nat → Bool
  stream : Nat → EvtStream

/-- Function `static_line` (src/src/main.rs lines 178-187): acquire the line
from the chip, log, and request it as an output driven to the given level
(`u8::from(state)`), under a consumer label derived from the line number. -/
def static_line (o : Oracle) (gpionum : Nat) (state : Bool) :
    List Effect × Except RunError Unit :=
  if o.getLineOk gpionum then
    ([Effect.logInfo ("Setup GPIO " ++ toString state ++ " output with default"),
      Effect.lineRequest gpionum (if state then 1 else 0)
        ("static_gpio_" ++ Nat.repr gpionum)],
     if o.requestOk gpionum then Except.ok () else Except.error RunError.gpioError)
  else ([], Except.error RunError.gpioError)

/-- Function `exec_binding` (src/src/main.rs lines 149-176): dispatch on the
action-name string.  Power actions sync the filesystem, sleep two seconds
and then attempt the manager call; `seton`/`setoff` drive the line; any
other name logs the fixed message `Unknown function` and succeeds. -/
def execBinding (o : Oracle) (input : String) (gpio : Nat) :
    List Effect × Except RunError Unit :=
  match input with
  | "poweroff" | "shutdown" =>
      ([Effect.logDebug "Sync file system...", Effect.syncFs, Effect.sleepSecs 2,
        Effect.logWarn "The system will poweroff NOW", Effect.mgrCall MgrAction.powerOff],
       if o.mgrOk MgrAction.powerOff then Except.ok () else Except.error RunError.mgrError)
  | "restart" =>
      ([Effect.logDebug "Sync file system...", Effect.syncFs, Effect.sleepSecs 2,
        Effect.mgrCall MgrAction.reboot],
       if o.mgrOk MgrAction.reboot then Except.ok () else Except.error RunError.mgrError)
  | "halt" =>
      ([Effect.logDebug "Sync file system...", Effect.syncFs, Effect.sleepSecs 2,
        Effect.mgrCall MgrAction.halt],
       if o.mgrOk MgrAction.halt then Except.ok () else Except.error RunError.mgrError)
  | "seton" => static_line o gpio true
  | "setoff" => static_line o gpio false
  | _ => ([Effect.logError "Unknown function"], Except.ok ())

/-- ActionKind (spec section 3): the closed classification of action names;
the unrecognized case carries the original name. -/
inductive ActionKind
  | powerOff
  | reboot
  | halt
  | setOutputHigh
  | setOutputLow
  | unrecognized (name : String)
deriving DecidableEq, Repr

/-- The Action Classifier: the string discriminator of `exec_binding`'s
match (src/src/main.rs lines 150-173) read as a total function into
`ActionKind`. -/
def classify_action (input : String) : ActionKind :=
  match input with
  | "poweroff" | "shutdown" => ActionKind.powerOff
  | "restart" => ActionKind.reboot
  | "halt" => ActionKind.halt
  | "seton" => ActionKind.setOutputHigh
  | "setoff" => ActionKind.setOutputLow
  | _ => ActionKind.unrecognized input

/-- Execution of a classified action: the branch bodies of `exec_binding`
(src/src/main.rs lines 149-176), indexed by `ActionKind`. -/
def exec_action (o : Oracle) (k : ActionKind) (gpio : Nat) :
    List Effect × Except RunError Unit :=
  match k with
  | ActionKind.powerOff =>
      ([Effect.logDebug "Sync file system...", Effect.syncFs, Effect.sleepSecs 2,
        Effect.logWarn "The system will poweroff NOW", Effect.mgrCall MgrAction.powerOff],
       if o.mgrOk MgrAction.powerOff then Except.ok () else Except.error RunError.mgrError)
  | ActionKind.reboot =>
      ([Effect.logDebug "Sync file system...", Effect.syncFs, Effect.sleepSecs 2,
        Effect.mgrCall MgrAction.reboot],
       if o.mgrOk MgrAction.reboot then Except.ok () else Except.error RunError.mgrError)
  | ActionKind.halt =>
      ([Effect.logDebug "Sync file system...", Effect.syncFs, Effect.sleepSecs 2,
        Effect.mgrCall MgrAction.halt],
       if o.mgrOk MgrAction.halt then Except.ok () else Except.error RunError.mgrError)
  | ActionKind.setOutputHigh => static_line o gpio true
  | ActionKind.setOutputLow => static_line o gpio false
  | ActionKind.unrecognized _ => ([Effect.logError "Unknown function"], Except.ok ())

/-! ## Event dispatch loop -/

/-- One entry of `input_events` (src/src/main.rs line 77): the event-stream
handle, the bound action name, and the line number. -/
structure Subscription where
  handle : EvtStream
  func : String
  gpio : Nat
deriving DecidableEq, Repr

/-- Result of visiting one subscription inside `tick`'s inner `for` loop. -/
inductive VisitResult
  | blocked
  | moveOn (s : Subscription)
  | fatal (e : RunError)
deriving DecidableEq, Repr

/-- One visit of a subscription by `tick` (src/src/main.rs lines 214-225):
log the check, block on `next().await`; a falling edge runs the binding (a
binding error is fatal via `?`), a rising edge is dropped, an error frame is
fatal via `?`, and end-of-stream just moves on, leaving the subscription in
place. -/
def visitSub (o : Oracle) (s : Subscription) : List Effect × VisitResult :=
  let checking := Effect.logDebug ("Checking GPIO " ++ Nat.repr s.gpio ++ " for events")
  match s.handle with
  | EvtStream.never => ([checking], VisitResult.blocked)
  | EvtStream.closed => ([checking], VisitResult.moveOn s)
  | EvtStream.next StreamItem.failed _ => ([checking], VisitResult.fatal RunError.streamError)
  | EvtStream.next (StreamItem.ok e) rest =>
      if e.event_type = EventType.falling then
        let fx := execBinding o s.func s.gpio
        (checking :: Effect.logDebug ("Execute " ++ Nat.repr s.gpio) :: fx.1,
         match fx.2 with
         | Except.ok () => VisitResult.moveOn { s with handle := rest }
         | Except.error er => VisitResult.fatal er)
      else ([checking], VisitResult.moveOn { s with handle := rest })

/-- Result of one full inner pass of `tick` over the subscription list. -/
inductive PassResult
  | blocked (subs : List Subscription)
  | fatal (e : RunError) (subs : List Subscription)
  | done (subs : List Subscription)
deriving DecidableEq, Repr

/-- One full pass of `tick`'s inner `for` loop (src/src/main.rs line 214):
visit every subscription in order, stopping the whole loop on a fatal error
and stopping forever on a stream that never yields. -/
def visitAll (o : Oracle) : List Subscription → List Effect × PassResult
  | [] => ([], PassResult.done [])
  | s :: rest =>
      match visitSub o s with
      | (fx, VisitResult.blocked) => (fx, PassResult.blocked (s :: rest))
      | (fx, VisitResult.fatal e) => (fx, PassResult.fatal e (s :: rest))
      | (fx, VisitResult.moveOn s') =>
          match visitAll o rest with
          | (fx2, PassResult.blocked subs) => (fx ++ fx2, PassResult.blocked (s' :: subs))
          | (fx2, PassResult.fatal e subs) => (fx ++ fx2, PassResult.fatal e (s' :: subs))
          | (fx2, PassResult.done subs) => (fx ++ fx2, PassResult.done (s' :: subs))

/-- Outcome of a fuel-bounded run of `tick`'s infinite outer loop: the Rust
loop only ever exits by error, so a run either hit a fatal error, is blocked
forever awaiting a quiescent line, or merely ran out of modelling fuel. -/
inductive TickOutcome
  | fatal (e : RunError)
  | blocked
  | fuelOut
deriving DecidableEq, Repr

/-- The outer `loop` of `tick` (src/src/main.rs lines 213-227), bounded by
`fuel` outer iterations; returns the accumulated effects, the outcome, and
the subscription list as it stands when the run stops. -/
def tickLoop (o : Oracle) : Nat → List Subscription →
    List Effect × TickOutcome × List Subscription
  | 0, subs => ([], TickOutcome.fuelOut, subs)
  | fuel + 1, subs =>
      match visitAll o subs with
      | (fx, PassResult.blocked subs') => (fx, TickOutcome.blocked, subs')
      | (fx, PassResult.fatal e subs') => (fx, TickOutcome.fatal e, subs')
      | (fx, PassResult.done subs') =>
          let r := tickLoop o fuel subs'
          (fx ++ r.1, r.2)

/-- Function `tick` (src/src/main.rs lines 207-228): log the start of the
event loop, then run the outer loop. -/
def tick (o : Oracle) (fuel : Nat) (subs : List Subscription) :
    List Effect × TickOutcome × List Subscription :=
  let r := tickLoop o fuel subs
  (Effect.logDebug "Event loop started" :: r.1, r.2)

/-! ## Startup: binding resolution -/

/-- Errors that abort startup (`main`'s `?` operators): an integer-parse
failure of a line-identifier key, carrying the `ParseIntError` display
string, or a propagated runtime error. -/
inductive StartupError
  | parse (msg : String)
  | run (e : RunError)
deriving DecidableEq, Repr

/-- Embedding of Rust's `str::parse::<u32>()`: an optional leading `+`, then
at least one decimal digit, value below 2^32.  The error messages are the
`ParseIntError` display strings; note that none of them contains the parsed
string itself. -/
def parseU32 (s : String) : Except String Nat :=
  match s.data with
  | [] => Except.error "cannot parse integer from empty string"
  | l =>
      let digits := match l with
        | '+' :: rest => rest
        | l => l
      if digits = [] then Except.error "invalid digit found in string"
      else if digits.all Char.isDigit then
        let n := digits.foldl (fun a c => a * 10 + (c.toNat - 48)) 0
        if n < 2 ^ 32 then Except.ok n
        else Except.error "number too large to fit in target type"
      else Except.error "invalid digit found in string"

/-- The output-initialisation loop of `main` (src/src/main.rs lines 73-75):
parse each output-binding key and execute its binding immediately; a parse
or execution failure aborts startup. -/
def setupOutputs (o : Oracle) : List (String × String) → List Effect × Except StartupError Unit
  | [] => ([], Except.ok ())
  | (gpio, func) :: rest =>
      match parseU32 gpio with
      | Except.error m => ([], Except.error (StartupError.parse m))
      | Except.ok n =>
          match execBinding o func n with
          | (fx, Except.error e) => (fx, Except.error (StartupError.run e))
          | (fx, Except.ok ()) =>
              let r := setupOutputs o rest
              (fx ++ r.1, r.2)

/-- The input-subscription loop of `main` (src/src/main.rs lines 77-81):
parse each input-binding key, acquire its edge-event stream
(`get_evt_handle`, lines 139-147), and collect the subscriptions in
encounter order; any failure aborts startup. -/
def setupInputs (o : Oracle) : List (String × String) →
    List Effect × Except StartupError (List Subscription)
  | [] => ([], Except.ok [])
  | (gpio, func) :: rest =>
      match parseU32 gpio with
      | Except.error m => ([], Except.error (StartupError.parse m))
      | Except.ok n =>
          if o.evtReqOk n then
            match setupInputs o rest with
            | (fx2, Except.error e) =>
                (Effect.eventRequest n ("gpio_event_" ++ Nat.repr n) :: fx2,
                 Except.error e)
            | (fx2, Except.ok subs) =>
                (Effect.eventRequest n ("gpio_event_" ++ Nat.repr n) :: fx2,
                 Except.ok ({ handle := o.stream n, func := func, gpio := n } :: subs))
          else ([], Except.error (StartupError.run RunError.gpioError))

/-- Function `main` after configuration loading (src/src/main.rs lines
66-84): sanitise the configuration, open the chip, run the output
initialisation, build the input subscriptions, and enter `tick`.  The
version banner and logger initialisation carry no modelled effect.  A fatal
`tick` error propagates out exactly like a startup error. -/
def mainRun (o : Oracle) (fuel : Nat) (cfg0 : AppConfig) :
    List Effect × Except StartupError (TickOutcome × List Subscription) :=
  let cfg := sanitise_gpio_names cfg0
  let fx0 := [Effect.logInfo ("Using " ++ cfg.master_chip)]
  if o.chipOk then
    match setupOutputs o cfg.output_binding with
    | (fx1, Except.error e) =>
        (fx0 ++ Effect.logInfo "Setup outputs" :: fx1, Except.error e)
    | (fx1, Except.ok ()) =>
        match setupInputs o cfg.input_binding with
        | (fx2, Except.error e) =>
            (fx0 ++ Effect.logInfo "Setup outputs" :: fx1
               ++ Effect.logInfo "Setup input" :: fx2, Except.error e)
        | (fx2, Except.ok subs) =>
            match tick o fuel subs with
            | (fx3, TickOutcome.fatal e, _) =>
                (fx0 ++ Effect.logInfo "Setup outputs" :: fx1
                   ++ Effect.logInfo "Setup input" :: fx2
                   ++ Effect.logInfo "Start event handler" :: fx3,
                 Except.error (StartupError.run e))
            | (fx3, out, subs') =>
                (fx0 ++ Effect.logInfo "Setup outputs" :: fx1
                   ++ Effect.logInfo "Setup input" :: fx2
                   ++ Effect.logInfo "Start event handler" :: fx3,
                 Except.ok (out, subs'))
  else (fx0, Except.error (StartupError.run RunError.gpioError))

/-- An environment in which every external call succeeds and every line's
stream is already at end-of-stream. -/
def okOracle : Oracle :=
  { mgrOk := fun _ => true
    getLineOk := fun _ => true
    requestOk := fun _ => true
    chipOk := true
    evtReqOk := fun _ => true
    stream := fun _ => EvtStream.closed }

/-- Hardware or system side effects: filesystem syncs, sleeps, manager
calls and output line requests (log lines and input subscriptions are not
side effects in this sense). -/
def isActionEffect : Effect → Bool
  | Effect.syncFs => true
  | Effect.sleepSecs _ => true
  | Effect.mgrCall _ => true
  | Effect.lineRequest _ _ _ => true
  | _ => false

/-- Whether an effect is an output line request. -/
def isOutputRequest : Effect → Bool
  | Effect.lineRequest _ _ _ => true
  | _ => false

/-- The output-request effects among a list of effects. -/
def outputRequests (l : List Effect) : List Effect :=
  l.filter isOutputRequest

/-- The hardware or system side effects among a list of effects. -/
def actionEffects (l : List Effect) : List Effect :=
  l.filter isActionEffect

/-- Substring occurrence test on character lists (used to check whether an
error message mentions an offending key or action name). -/
def startsWithChars : List Char → List Char → Bool
  | [], _ => true
  | _ :: _, [] => false
  | p :: ps, c :: cs => p == c && startsWithChars ps cs

/-- Whether `pat` occurs contiguously anywhere in the second list. -/
def containsChars (pat : List Char) : List Char → Bool
  | [] => startsWithChars pat []
  | c :: cs => startsWithChars pat (c :: cs) || containsChars pat cs

/-! ## Helper lemmas about the action executor -/

/-- Default arm of `exec_binding`'s match: any name other than the six known
ones logs the fixed message and returns success. -/
theorem execBinding_unknown (o : Oracle) (s : String) (g : Nat)
    (h1 : s ≠ "poweroff") (h2 : s ≠ "shutdown") (h3 : s ≠ "restart")
    (h4 : s ≠ "halt") (h5 : s ≠ "seton") (h6 : s ≠ "setoff") :
    execBinding o s g = ([Effect.logError "Unknown function"], Except.ok ()) := by
  rw [execBinding.eq_def]
  split <;> simp_all

/-- Default arm of the classifier: any name other than the six known ones is
unrecognized, carrying the original name. -/
theorem classify_unknown (s : String)
    (h1 : s ≠ "poweroff") (h2 : s ≠ "shutdown") (h3 : s ≠ "restart")
    (h4 : s ≠ "halt") (h5 : s ≠ "seton") (h6 : s ≠ "setoff") :
    classify_action s = ActionKind.unrecognized s := by
  rw [classify_action.eq_def]
  split <;> simp_all

/-- Claim C2: action classification is total, deterministic and
case-sensitive; the six known names map to their fixed kinds, every other
string is unrecognized carrying the original name, and `exec_binding`'s
behaviour factors through this classification for known and unknown names
alike, so classification never fails. -/
theorem classify_action_spec (o : Oracle) (g : Nat) (s : String)
    (h1 : s ≠ "poweroff") (h2 : s ≠ "shutdown") (h3 : s ≠ "restart")
    (h4 : s ≠ "halt") (h5 : s ≠ "seton") (h6 : s ≠ "setoff") :
    classify_action "poweroff" = ActionKind.powerOff
    ∧ classify_action "shutdown" = ActionKind.powerOff
    ∧ classify_action "restart" = ActionKind.reboot
    ∧ classify_action "halt" = ActionKind.halt
    ∧ classify_action "seton" = ActionKind.setOutputHigh
    ∧ classify_action "setoff" = ActionKind.setOutputLow
    ∧ classify_action s = ActionKind.unrecognized s
    ∧ execBinding o s g = exec_action o (classify_action s) g
    ∧ execBinding o "poweroff" g = exec_action o (classify_action "poweroff") g
    ∧ execBinding o "shutdown" g = exec_action o (classify_action "shutdown") g
    ∧ execBinding o "restart" g = exec_action o (classify_action "restart") g
    ∧ execBinding o "halt" g = exec_action o (classify_action "halt") g
    ∧ execBinding o "seton" g = exec_action o (classify_action "seton") g
    ∧ execBinding o "setoff" g = exec_action o (classify_action "setoff") g := by
  have hcl := classify_unknown s h1 h2 h3 h4 h5 h6
  have hex := execBinding_unknown o s g h1 h2 h3 h4 h5 h6
  refine ⟨rfl, rfl, rfl, rfl, rfl, rfl, hcl, ?_, rfl, rfl, rfl, rfl, rfl, rfl⟩
  rw [hex, hcl]
  rfl

/-- Witness for claim C2, checking in particular that classification is
case-sensitive: `"Poweroff"` is unrecognized. -/
theorem classify_action_spec_witness :
    classify_action "poweroff" = ActionKind.powerOff
    ∧ classify_action "shutdown" = ActionKind.powerOff
    ∧ classify_action "restart" = ActionKind.reboot
    ∧ classify_action "halt" = ActionKind.halt
    ∧ classify_action "seton" = ActionKind.setOutputHigh
    ∧ classify_action "setoff" = ActionKind.setOutputLow
    ∧ classify_action "Poweroff" = ActionKind.unrecognized "Poweroff"
    ∧ execBinding okOracle "Poweroff" 4 = exec_action okOracle (classify_action "Poweroff") 4
    ∧ execBinding okOracle "poweroff" 4 = exec_action okOracle (classify_action "poweroff") 4
    ∧ execBinding okOracle "shutdown" 4 = exec_action okOracle (classify_action "shutdown") 4
    ∧ execBinding okOracle "restart" 4 = exec_action okOracle (classify_action "restart") 4
    ∧ execBinding okOracle "halt" 4 = exec_action okOracle (classify_action "halt") 4
    ∧ execBinding okOracle "seton" 4 = exec_action okOracle (classify_action "seton") 4
    ∧ execBinding okOracle "setoff" 4 = exec_action okOracle (classify_action "setoff") 4 :=
  classify_action_spec okOracle 4 "Poweroff" (by decide) (by decide) (by decide)
    (by decide) (by decide) (by decide)

/-- Claim C4: every power action (both names for PowerOff, and Reboot and
Halt) first syncs the filesystem, then sleeps exactly two seconds, and only
then attempts the manager call — the effect list is the same for every
oracle, so the sync and the sleep happen even when the manager call then
fails, as the last conjunct's failing environment shows. -/
theorem power_actions_sync_sleep_then_call (o : Oracle) (g : Nat) :
    (execBinding o "poweroff" g).1
      = [Effect.logDebug "Sync file system...", Effect.syncFs, Effect.sleepSecs 2,
         Effect.logWarn "The system will poweroff NOW", Effect.mgrCall MgrAction.powerOff]
    ∧ (execBinding o "shutdown" g).1
      = [Effect.logDebug "Sync file system...", Effect.syncFs, Effect.sleepSecs 2,
         Effect.logWarn "The system will poweroff NOW", Effect.mgrCall MgrAction.powerOff]
    ∧ (execBinding o "restart" g).1
      = [Effect.logDebug "Sync file system...", Effect.syncFs, Effect.sleepSecs 2,
         Effect.mgrCall MgrAction.reboot]
    ∧ (execBinding o "halt" g).1
      = [Effect.logDebug "Sync file system...", Effect.syncFs, Effect.sleepSecs 2,
         Effect.mgrCall MgrAction.halt]
    ∧ (execBinding { o with mgrOk := fun _ => false } "poweroff" g).2
      = Except.error RunError.mgrError :=
  ⟨rfl, rfl, rfl, rfl, rfl⟩

/-- Claim C5 (corrected, counterexample): executing an unrecognized action
does not log the action name — the logged error is the fixed string
`Unknown function`, which does not contain the name `frobnicate`. -/
theorem unrecognized_log_lacks_name :
    execBinding okOracle "frobnicate" 5
      = ([Effect.logError "Unknown function"], Except.ok ())
    ∧ containsChars "frobnicate".data "Unknown function".data = false := by
  constructor
  · rfl
  · decide

/-- Claim C5 (amended): executing an Unrecognized action logs the fixed
error message `Unknown function` (not the action name), performs no hardware
or system side effect, and returns success; hence a falling edge bound to an
unknown action name is not fatal, and the dispatch loop proceeds to the next
subscription, whose binding still executes. -/
theorem unrecognized_action_amended (o : Oracle) (g : Nat) (s : String)
    (h1 : s ≠ "poweroff") (h2 : s ≠ "shutdown") (h3 : s ≠ "restart")
    (h4 : s ≠ "halt") (h5 : s ≠ "seton") (h6 : s ≠ "setoff") :
    execBinding o s g = ([Effect.logError "Unknown function"], Except.ok ())
    ∧ tick okOracle 1
        [{ handle := EvtStream.next (StreamItem.ok { event_type := EventType.falling })
             EvtStream.closed, func := s, gpio := 5 },
         { handle := EvtStream.next (StreamItem.ok { event_type := EventType.falling })
             EvtStream.closed, func := "setoff", gpio := 6 }]
      = ([Effect.logDebug "Event loop started",
          Effect.logDebug "Checking GPIO 5 for events",
          Effect.logDebug "Execute 5",
          Effect.logError "Unknown function",
          Effect.logDebug "Checking GPIO 6 for events",
          Effect.logDebug "Execute 6",
          Effect.logInfo "Setup GPIO false output with default",
          Effect.lineRequest 6 0 "static_gpio_6"],
         TickOutcome.fuelOut,
         [{ handle := EvtStream.closed, func := s, gpio := 5 },
          { handle := EvtStream.closed, func := "setoff", gpio := 6 }]) := by
  have hex := execBinding_unknown okOracle s 5 h1 h2 h3 h4 h5 h6
  refine ⟨execBinding_unknown o s g h1 h2 h3 h4 h5 h6, ?_⟩
  simp only [tick, tickLoop, visitAll, visitSub, hex]
  rfl

/-- Witness for the amended claim C5, at the unknown action name
`frobnicate`. -/
theorem unrecognized_action_amended_witness :
    execBinding okOracle "frobnicate" 9
      = ([Effect.logError "Unknown function"], Except.ok ())
    ∧ tick okOracle 1
        [{ handle := EvtStream.next (StreamItem.ok { event_type := EventType.falling })
             EvtStream.closed, func := "frobnicate", gpio := 5 },
         { handle := EvtStream.next (StreamItem.ok { event_type := EventType.falling })
             EvtStream.closed, func := "setoff", gpio := 6 }]
      = ([Effect.logDebug "Event loop started",
          Effect.logDebug "Checking GPIO 5 for events",
          Effect.logDebug "Execute 5",
          Effect.logError "Unknown function",
          Effect.logDebug "Checking GPIO 6 for events",
          Effect.logDebug "Execute 6",
          Effect.logInfo "Setup GPIO false output with default",
          Effect.lineRequest 6 0 "static_gpio_6"],
         TickOutcome.fuelOut,
         [{ handle := EvtStream.closed, func := "frobnicate", gpio := 5 },
          { handle := EvtStream.closed, func := "setoff", gpio := 6 }]) :=
  unrecognized_action_amended okOracle 9 "frobnicate" (by decide) (by decide)
    (by decide) (by decide) (by decide) (by decide)

/-! ## Lemmas about the dispatch loop -/

/-- Filtering with a predicate that fails everywhere gives the empty
list. -/
theorem filter_none {α : Type} (p : α → Bool) (l : List α)
    (h : ∀ a ∈ l, p a = false) : l.filter p = [] := by
  induction l with
  | nil => rfl
  | cons a t ih =>
      rw [List.filter_cons_of_neg (by simp [h a (by simp)])]
      exact ih (fun x hx => h x (by simp [hx]))

/-- The filter `outputRequests` distributes over list append. -/
theorem outputRequests_append (a b : List Effect) :
    outputRequests (a ++ b) = outputRequests a ++ outputRequests b :=
  List.filter_append ..

/-- The filter `actionEffects` distributes over list append. -/
theorem actionEffects_append (a b : List Effect) :
    actionEffects (a ++ b) = actionEffects a ++ actionEffects b :=
  List.filter_append ..

/-- Visiting a subscription whose stream is at end-of-stream only logs the
check and leaves the subscription unchanged. -/
theorem visitSub_closed (o : Oracle) (s : Subscription)
    (h : s.handle = EvtStream.closed) :
    visitSub o s
      = ([Effect.logDebug ("Checking GPIO " ++ Nat.repr s.gpio ++ " for events")],
         VisitResult.moveOn s) := by
  unfold visitSub
  rw [h]

/-- A full inner pass over subscriptions that are all at end-of-stream
emits one check log per subscription and finishes the pass with the
subscription list unchanged. -/
theorem visitAll_closed (o : Oracle) (subs : List Subscription)
    (h : ∀ s ∈ subs, s.handle = EvtStream.closed) :
    visitAll o subs
      = (subs.map (fun s =>
            Effect.logDebug ("Checking GPIO " ++ Nat.repr s.gpio ++ " for events")),
         PassResult.done subs) := by
  induction subs with
  | nil => rfl
  | cons s t ih =>
      have hv := visitSub_closed o s (h s (by simp))
      simp only [visitAll, hv, ih (fun x hx => h x (by simp [hx]))]
      simp

/-- Any number of outer iterations over subscriptions that are all at
end-of-stream only produces debug logs, never stops, and never changes the
subscription list. -/
theorem tickLoop_closed (o : Oracle) (f : Nat) (subs : List Subscription)
    (h : ∀ s ∈ subs, s.handle = EvtStream.closed) :
    (∀ e ∈ (tickLoop o f subs).1, ∃ m, e = Effect.logDebug m)
    ∧ (tickLoop o f subs).2 = (TickOutcome.fuelOut, subs) := by
  induction f with
  | zero => exact ⟨by simp [tickLoop], rfl⟩
  | succ f ih =>
      have hva := visitAll_closed o subs h
      constructor
      · intro e he
        simp only [tickLoop, hva] at he
        rcases List.mem_append.1 he with h1 | h2
        · obtain ⟨s', -, rfl⟩ := List.mem_map.1 h1
          exact ⟨_, rfl⟩
        · exact ih.1 e h2
      · simp only [tickLoop, hva]
        exact ih.2

/-- Claim C7: the dispatch loop is a strict blocking round-robin.  With any
number of outer iterations of fuel, a first subscription whose stream never
yields blocks the whole loop after its own check log: no effect of any
later subscription is ever produced, whatever those subscriptions are, and
the loop never reaches them. -/
theorem round_robin_starvation (o : Oracle) (f : Nat) (name : String) (n : Nat)
    (rest : List Subscription) :
    tick o (f + 1) ({ handle := EvtStream.never, func := name, gpio := n } :: rest)
      = ([Effect.logDebug "Event loop started",
          Effect.logDebug ("Checking GPIO " ++ Nat.repr n ++ " for events")],
         TickOutcome.blocked,
         { handle := EvtStream.never, func := name, gpio := n } :: rest) := by
  simp only [tick, tickLoop, visitAll, visitSub]

/-- Claim C9: end-of-stream on a subscription is a silent no-op that keeps
the subscription.  Visiting an end-of-stream subscription only logs the
check and returns it unchanged; concretely, a run with an exhausted line 3
ahead of an active line 6 still executes line 6's binding on the first
pass, observes the same end-of-stream for line 3 again on the second pass,
and ends with both subscriptions still in the list. -/
theorem eos_subscription_retained (o : Oracle) (a : String) (n : Nat) :
    visitSub o { handle := EvtStream.closed, func := a, gpio := n }
      = ([Effect.logDebug ("Checking GPIO " ++ Nat.repr n ++ " for events")],
         VisitResult.moveOn { handle := EvtStream.closed, func := a, gpio := n })
    ∧ tick okOracle 2
        [{ handle := EvtStream.closed, func := "halt", gpio := 3 },
         { handle := EvtStream.next (StreamItem.ok { event_type := EventType.falling })
             EvtStream.closed, func := "seton", gpio := 6 }]
      = ([Effect.logDebug "Event loop started",
          Effect.logDebug "Checking GPIO 3 for events",
          Effect.logDebug "Checking GPIO 6 for events",
          Effect.logDebug "Execute 6",
          Effect.logInfo "Setup GPIO true output with default",
          Effect.lineRequest 6 1 "static_gpio_6",
          Effect.logDebug "Checking GPIO 3 for events",
          Effect.logDebug "Checking GPIO 6 for events"],
         TickOutcome.fuelOut,
         [{ handle := EvtStream.closed, func := "halt", gpio := 3 },
          { handle := EvtStream.closed, func := "seton", gpio := 6 }]) :=
  ⟨rfl, rfl⟩

/-! ## The single-falling-edge scenario of claim C3 -/

/-- Subscription for line 17 bound to `setoff`, whose stream yields one
falling edge and then ends. -/
def sub17falling : Subscription :=
  { handle := EvtStream.next (StreamItem.ok { event_type := EventType.falling })
      EvtStream.closed
    func := "setoff", gpio := 17 }

/-- The same subscription after its single event has been consumed. -/
def sub17closed : Subscription :=
  { handle := EvtStream.closed, func := "setoff", gpio := 17 }

/-- Environment where every call succeeds and line 17 delivers a single
falling edge. -/
def oFalling17 : Oracle :=
  { okOracle with
    stream := fun n =>
      if n == 17 then
        EvtStream.next (StreamItem.ok { event_type := EventType.falling })
          EvtStream.closed
      else EvtStream.closed }

/-- Environment where every call succeeds and line 17 delivers a single
rising edge. -/
def oRising17 : Oracle :=
  { okOracle with
    stream := fun n =>
      if n == 17 then
        EvtStream.next (StreamItem.ok { event_type := EventType.rising })
          EvtStream.closed
      else EvtStream.closed }

/-- Configuration binding line 17 to `setoff` as an input. -/
def cfg17 : AppConfig :=
  { master_chip := DEFAULT_CHIP, log_level := 3
    input_binding := [("17", "setoff")], output_binding := [] }

/-- Subscription for line 17 bound to `setoff`, whose stream yields one
rising edge and then ends. -/
def sub17rising : Subscription :=
  { handle := EvtStream.next (StreamItem.ok { event_type := EventType.rising })
      EvtStream.closed
    func := "setoff", gpio := 17 }

/-- Claim C3: with input binding line 17 to `setoff`, a single falling edge
on line 17 produces exactly one output request — on line 17, at level 0 —
over the entire run, for any number of further loop iterations; with a
rising edge instead, the run performs no hardware or system side effect at
all, and in general visiting a rising-edge event only consumes it, executing
nothing. -/
theorem falling_edge_dispatch_once (f : Nat) (o' : Oracle) (a : String) (n : Nat)
    (rest : EvtStream) :
    outputRequests (mainRun oFalling17 (f + 1) cfg17).1
      = [Effect.lineRequest 17 0 "static_gpio_17"]
    ∧ (mainRun oFalling17 (f + 1) cfg17).2
      = Except.ok (TickOutcome.fuelOut, [sub17closed])
    ∧ actionEffects (mainRun oRising17 (f + 1) cfg17).1 = []
    ∧ visitSub o'
        { handle := EvtStream.next (StreamItem.ok { event_type := EventType.rising }) rest
          func := a, gpio := n }
      = ([Effect.logDebug ("Checking GPIO " ++ Nat.repr n ++ " for events")],
         VisitResult.moveOn { handle := rest, func := a, gpio := n }) := by
  have hclosedmem : ∀ s ∈ [sub17closed], s.handle = EvtStream.closed := by
    intro s hs
    simp at hs
    subst hs
    rfl
  have hclF := tickLoop_closed oFalling17 f [sub17closed] hclosedmem
  have hclR := tickLoop_closed oRising17 f [sub17closed] hclosedmem
  have hpassF : visitAll oFalling17 [sub17falling]
      = ([Effect.logDebug "Checking GPIO 17 for events",
          Effect.logDebug "Execute 17",
          Effect.logInfo "Setup GPIO false output with default",
          Effect.lineRequest 17 0 "static_gpio_17"],
         PassResult.done [sub17closed]) := rfl
  have hpassR : visitAll oRising17 [sub17rising]
      = ([Effect.logDebug "Checking GPIO 17 for events"],
         PassResult.done [sub17closed]) := rfl
  have htlF : tickLoop oFalling17 (f + 1) [sub17falling]
      = ([Effect.logDebug "Checking GPIO 17 for events",
          Effect.logDebug "Execute 17",
          Effect.logInfo "Setup GPIO false output with default",
          Effect.lineRequest 17 0 "static_gpio_17"]
           ++ (tickLoop oFalling17 f [sub17closed]).1,
         (tickLoop oFalling17 f [sub17closed]).2) := by
    simp only [tickLoop, hpassF]
  have htlR : tickLoop oRising17 (f + 1) [sub17rising]
      = ([Effect.logDebug "Checking GPIO 17 for events"]
           ++ (tickLoop oRising17 f [sub17closed]).1,
         (tickLoop oRising17 f [sub17closed]).2) := by
    simp only [tickLoop, hpassR]
  have htickF : tick oFalling17 (f + 1) [sub17falling]
      = (Effect.logDebug "Event loop started"
           :: ([Effect.logDebug "Checking GPIO 17 for events",
               Effect.logDebug "Execute 17",
               Effect.logInfo "Setup GPIO false output with default",
               Effect.lineRequest 17 0 "static_gpio_17"]
             ++ (tickLoop oFalling17 f [sub17closed]).1),
         TickOutcome.fuelOut, [sub17closed]) := by
    simp only [tick, htlF, hclF.2]
  have htickR : tick oRising17 (f + 1) [sub17rising]
      = (Effect.logDebug "Event loop started"
           :: ([Effect.logDebug "Checking GPIO 17 for events"]
             ++ (tickLoop oRising17 f [sub17closed]).1),
         TickOutcome.fuelOut, [sub17closed]) := by
    simp only [tick, htlR, hclR.2]
  have hmainF : mainRun oFalling17 (f + 1) cfg17
      = ([Effect.logInfo "Using /dev/gpiochip0",
          Effect.logInfo "Setup outputs",
          Effect.logInfo "Setup input",
          Effect.eventRequest 17 "gpio_event_17",
          Effect.logInfo "Start event handler",
          Effect.logDebug "Event loop started",
          Effect.logDebug "Checking GPIO 17 for events",
          Effect.logDebug "Execute 17",
          Effect.logInfo "Setup GPIO false output with default",
          Effect.lineRequest 17 0 "static_gpio_17"]
           ++ (tickLoop oFalling17 f [sub17closed]).1,
         Except.ok (TickOutcome.fuelOut, [sub17closed])) := by
    simp only [mainRun,
      show sanitise_gpio_names cfg17 = cfg17 from rfl,
      show oFalling17.chipOk = true from rfl, if_true,
      show setupOutputs oFalling17 cfg17.output_binding = ([], Except.ok ()) from rfl,
      show setupInputs oFalling17 cfg17.input_binding
        = ([Effect.eventRequest 17 "gpio_event_17"], Except.ok [sub17falling]) from rfl,
      htickF]
    rfl
  have hmainR : mainRun oRising17 (f + 1) cfg17
      = ([Effect.logInfo "Using /dev/gpiochip0",
          Effect.logInfo "Setup outputs",
          Effect.logInfo "Setup input",
          Effect.eventRequest 17 "gpio_event_17",
          Effect.logInfo "Start event handler",
          Effect.logDebug "Event loop started",
          Effect.logDebug "Checking GPIO 17 for events"]
           ++ (tickLoop oRising17 f [sub17closed]).1,
         Except.ok (TickOutcome.fuelOut, [sub17closed])) := by
    simp only [mainRun,
      show sanitise_gpio_names cfg17 = cfg17 from rfl,
      show oRising17.chipOk = true from rfl, if_true,
      show setupOutputs oRising17 cfg17.output_binding = ([], Except.ok ()) from rfl,
      show setupInputs oRising17 cfg17.input_binding
        = ([Effect.eventRequest 17 "gpio_event_17"], Except.ok [sub17rising]) from rfl,
      htickR]
    rfl
  have hmainF1 : (mainRun oFalling17 (f + 1) cfg17).1
      = [Effect.logInfo "Using /dev/gpiochip0",
         Effect.logInfo "Setup outputs",
         Effect.logInfo "Setup input",
         Effect.eventRequest 17 "gpio_event_17",
         Effect.logInfo "Start event handler",
         Effect.logDebug "Event loop started",
         Effect.logDebug "Checking GPIO 17 for events",
         Effect.logDebug "Execute 17",
         Effect.logInfo "Setup GPIO false output with default",
         Effect.lineRequest 17 0 "static_gpio_17"]
          ++ (tickLoop oFalling17 f [sub17closed]).1 := by
    rw [hmainF]
  have hmainR1 : (mainRun oRising17 (f + 1) cfg17).1
      = [Effect.logInfo "Using /dev/gpiochip0",
         Effect.logInfo "Setup outputs",
         Effect.logInfo "Setup input",
         Effect.eventRequest 17 "gpio_event_17",
         Effect.logInfo "Start event handler",
         Effect.logDebug "Event loop started",
         Effect.logDebug "Checking GPIO 17 for events"]
          ++ (tickLoop oRising17 f [sub17closed]).1 := by
    rw [hmainR]
  have htailF : outputRequests (tickLoop oFalling17 f [sub17closed]).1 = [] := by
    refine filter_none _ _ ?_
    intro e he
    obtain ⟨m, hm⟩ := hclF.1 e he
    subst hm
    rfl
  have htailR : actionEffects (tickLoop oRising17 f [sub17closed]).1 = [] := by
    refine filter_none _ _ ?_
    intro e he
    obtain ⟨m, hm⟩ := hclR.1 e he
    subst hm
    rfl
  refine ⟨?_, by rw [hmainF], ?_, rfl⟩
  · rw [hmainF1]
    unfold outputRequests at htailF ⊢
    rw [List.filter_append, htailF, List.append_nil]
    rfl
  · rw [hmainR1]
    unfold actionEffects at htailR ⊢
    rw [List.filter_append, htailR, List.append_nil]
    rfl

/-! ## Configuration file boundary

The TOML serializer and parser live in the external `toml` crate, outside
this repository; they are modelled here from the spec's schema (section 6)
as a concrete, executable codec for the `AppConfig` shape: top-level scalar
fields, then one table of string entries per binding map.
-/

/-- Modelled from the spec: TOML basic-string rendering of a configuration
value (no escape sequences are needed by this schema). -/
def quoteStr (s : String) : String := "\"" ++ s ++ "\""

/-- Modelled from the spec: one `key = "value"` line per binding entry. -/
def entryLines (m : List (String × String)) : String :=
  m.foldr (fun p acc => p.1 ++ " = " ++ quoteStr p.2 ++ "\n" ++ acc) ""

/-- Modelled from the spec: `toml::to_string_pretty` on an `AppConfig`
(used at src/src/main.rs line 120) — the two scalar fields followed by the
two binding tables. -/
def toml_to_string_pretty (c : AppConfig) : String :=
  "master_chip = " ++ quoteStr c.master_chip ++ "\n"
    ++ "log_level = " ++ Nat.repr c.log_level ++ "\n"
    ++ "\n[input_binding]\n" ++ entryLines c.input_binding
    ++ "\n[output_binding]\n" ++ entryLines c.output_binding

/-- Split a character list at newline characters, accumulating the current
line in reverse. -/
def splitLinesAux : List Char → List Char → List (List Char)
  | [], cur => [cur.reverse]
  | c :: rest, cur =>
      if c = '\n' then cur.reverse :: splitLinesAux rest []
      else splitLinesAux rest (c :: cur)

/-- Split a line at its first `=`, if any. -/
def splitEq : List Char → Option (List Char × List Char)
  | [] => none
  | c :: rest =>
      if c = '=' then some ([], rest)
      else
        match splitEq rest with
        | some (a, b) => some (c :: a, b)
        | none => none

/-- Modelled from the spec: parse a TOML basic string (double-quoted, no
escapes — sufficient for this schema). -/
def parseQuoted (v : List Char) : Option String :=
  match v with
  | '"' :: rest =>
      match rest.reverse with
      | '"' :: revContent =>
          let content := revContent.reverse
          if content.any (fun c => c == '"' || c == '\\') then none
          else some ⟨content⟩
      | _ => none
  | _ => none

/-- Modelled from the spec: parse a TOML non-negative decimal integer. -/
def parseDecimal (v : List Char) : Option Nat :=
  if v ≠ [] ∧ v.all Char.isDigit then
    some (v.foldl (fun a c => a * 10 + (c.toNat - 48)) 0)
  else none

/-- Parser state for the modelled TOML reader: current section (0 the top
level, 1 the input-binding table, 2 the output-binding table) and the fields
found so far. -/
structure DecodeState where
  sect : Nat
  chip? : Option String
  level? : Option Nat
  inB : List (String × String)
  outB : List (String × String)

/-- Modelled from the spec: consume one (already trimmed) line of the
configuration file.  Unknown top-level keys are ignored, as serde does for
a derive without `deny_unknown_fields`; a `log_level` above the `u8` range
or a malformed value is a parse error. -/
def decodeLine (st : DecodeState) (l : List Char) : Option DecodeState :=
  if l = [] then some st
  else if l = "[input_binding]".data then some { st with sect := 1 }
  else if l = "[output_binding]".data then some { st with sect := 2 }
  else
    match l with
    | '[' :: _ => none
    | _ =>
        match splitEq l with
        | none => none
        | some (k0, v0) =>
            let k := trimChars k0
            let v := trimChars v0
            match st.sect with
            | 0 =>
                if k = "master_chip".data then
                  match parseQuoted v with
                  | some s => some { st with chip? := some s }
                  | none => none
                else if k = "log_level".data then
                  match parseDecimal v with
                  | some n => if n < 256 then some { st with level? := some n } else none
                  | none => none
                else some st
            | 1 =>
                match parseQuoted v with
                | some s => some { st with inB := mapInsert st.inB ⟨k⟩ s }
                | none => none
            | _ =>
                match parseQuoted v with
                | some s => some { st with outB := mapInsert st.outB ⟨k⟩ s }
                | none => none

/-- Modelled from the spec: `toml::from_str` for the `AppConfig` schema
(used at src/src/main.rs line 112).  Both scalar fields are mandatory, as
they are for the serde derive without defaults. -/
def toml_from_str (s : String) : Option AppConfig :=
  let lines := splitLinesAux s.data []
  match lines.foldl (fun acc l => acc.bind (fun st => decodeLine st (trimChars l)))
      (some { sect := 0, chip? := none, level? := none, inB := [], outB := [] }) with
  | none => none
  | some st =>
      match st.chip?, st.level? with
      | some c, some lv =>
          some { master_chip := c, log_level := lv
                 input_binding := st.inB, output_binding := st.outB }
      | _, _ => none

/-- Function `load_config` (src/src/main.rs lines 107-125), with the
filesystem passed explicitly: `file` is the content of `/etc/radio.conf` if
the file exists.  When the file is absent the OS error is logged, the
default configuration is serialized, written back to the fixed path and
used for the run; when it exists, its content is parsed and a parse failure
is fatal. -/
def load_config (file : Option String) :
    List Effect × Except StartupError (AppConfig × Option String) :=
  match file with
  | some content =>
      match toml_from_str content with
      | some cfg => ([], Except.ok (cfg, none))
      | none => ([], Except.error (StartupError.parse "TOML parse error"))
  | none =>
      ([Effect.logWarn "No such file or directory (os error 2)",
        Effect.logInfo ("Writing default config to " ++ CFGPATH),
        Effect.fsWrite CFGPATH (toml_to_string_pretty AppConfig.default)],
       Except.ok (AppConfig.default, some (toml_to_string_pretty AppConfig.default)))

/-- Claim C6: loading with no configuration file present yields the default
configuration — default chip, log level 3, empty binding maps — and writes
its serialization to the fixed path `/etc/radio.conf`; re-loading exactly
the written content parses back to a configuration equal to the default
(round-trip), with nothing written on that second load. -/
theorem default_config_roundtrip :
    load_config none
      = ([Effect.logWarn "No such file or directory (os error 2)",
          Effect.logInfo "Writing default config to /etc/radio.conf",
          Effect.fsWrite "/etc/radio.conf" (toml_to_string_pretty AppConfig.default)],
         Except.ok (AppConfig.default, some (toml_to_string_pretty AppConfig.default)))
    ∧ AppConfig.default
      = { master_chip := "/dev/gpiochip0", log_level := 3
          input_binding := [], output_binding := [] }
    ∧ toml_from_str (toml_to_string_pretty AppConfig.default) = some AppConfig.default
    ∧ (load_config (some (toml_to_string_pretty AppConfig.default))).2
      = Except.ok (AppConfig.default, none) :=
  ⟨rfl, rfl, by decide, rfl⟩

/-- Claim C8 (corrected, counterexample): a non-numeric binding key is
indeed fatal at binding resolution, but the resulting `ParseIntError`
display string is the fixed message `invalid digit found in string`, which
names neither the raw key `gpio5x` nor its sanitised form `5x`. -/
theorem parse_error_lacks_key :
    mainRun okOracle 1
      { master_chip := DEFAULT_CHIP, log_level := 3
        input_binding := [("gpio5x", "halt")], output_binding := [] }
      = ([Effect.logInfo "Using /dev/gpiochip0",
          Effect.logInfo "Setup outputs",
          Effect.logInfo "Setup input"],
         Except.error (StartupError.parse "invalid digit found in string"))
    ∧ containsChars "gpio5x".data "invalid digit found in string".data = false
    ∧ containsChars "5x".data "invalid digit found in string".data = false :=
  ⟨rfl, by decide, by decide⟩

/-- Claim C8 (amended): sanitization itself never fails — it turns
`gpio5x` into the key `5x` — and a key whose sanitised form does not parse
as a non-negative integer is only diagnosed during binding resolution at
startup, which fails with a ParseError whose message (`invalid digit found
in string`) does not include the offending key, aborting the run before the
dispatch loop starts: no `tick` effect is emitted and the run ends in the
parse error, whatever the environment, fuel, chip name, log level and bound
action name are. -/
theorem nonnumeric_key_startup_fatal (o : Oracle) (f : Nat) (c v : String) (lv : Nat) :
    sanitiseKey "gpio5x" = "5x"
    ∧ parseU32 "5x" = Except.error "invalid digit found in string"
    ∧ mainRun { o with chipOk := true } f
        { master_chip := c, log_level := lv
          input_binding := [("gpio5x", v)], output_binding := [] }
      = ([Effect.logInfo ("Using " ++ c),
          Effect.logInfo "Setup outputs",
          Effect.logInfo "Setup input"],
         Except.error (StartupError.parse "invalid digit found in string")) :=
  ⟨rfl, rfl, rfl⟩

/-- Claim C10 (corrected, counterexample): `g17pio` contains no occurrence
of the substring `gpio`, so it is not rewritten and does not sanitise to the
same key as `gpio17` — the claim's second example pair does not collide. -/
theorem g17pio_not_merged :
    sanitiseKey "g17pio" = "g17pio"
    ∧ sanitiseKey "gpio17" = "17"
    ∧ sanitiseKey "g17pio" ≠ sanitiseKey "gpio17" := by
  refine ⟨rfl, rfl, by decide⟩

/-- Claim C10 (amended): key normalization can merge bindings — two distinct
raw keys that sanitise to the same string, such as `gpio5` and `5`, leave
only one of their values in the rebuilt map, the survivor depending on the
iteration order of the unspecified `HashMap` traversal, so the sanitized map
can have strictly fewer entries than the raw map and a configured binding is
silently dropped. -/
theorem sanitise_key_merge_amended :
    sanitiseMap [("gpio5", "seton"), ("5", "setoff")] = [("5", "setoff")]
    ∧ sanitiseMap [("5", "setoff"), ("gpio5", "seton")] = [("5", "seton")]
    ∧ (sanitiseMap [("gpio5", "seton"), ("5", "setoff")]).length = 1
    ∧ ([("gpio5", "seton"), ("5", "setoff")] : List (String × String)).length = 2 :=
  ⟨rfl, rfl, rfl, rfl⟩

end Radio
